import Mathlib

/-!
A shallow embedding of `src/interfaces/base_for_async_and_sync_subclasshook.py`
from the arcane-python repository.

Python callables are modelled variadically: a function receives a list of
positional arguments and an association list of keyword arguments (name/value
pairs, call-site order preserved).  Raising an exception is modelled with
`Except`: `ValueError` and `TypeError` carry their message.  The distinction
between a plain function and a coroutine function (what
`inspect.iscoroutinefunction` observes) is a boolean tag on the callable.
-/

namespace Arcane

/-- Positional arguments of a Python call. -/
abbrev Args (α : Type) := List α

/-- Keyword arguments of a Python call: name/value pairs in call-site order. -/
abbrev Kwargs (α : Type) := List (String × α)

/-- The exceptions the embedded code can raise. -/
inductive PyErr : Type where
  | valueError (msg : String)
  | typeError (msg : String)
  deriving DecidableEq

/-- Result of a Python call: an ordinary value or the `NotImplemented`
singleton (which the placeholder behaviors return). -/
inductive PyRes (α : Type) : Type where
  | val (a : α)
  | notImplemented
  deriving DecidableEq

/-- A Python callable together with the tag `inspect.iscoroutinefunction`
reads off it: `isCoro = true` models a coroutine function (`async def`),
`isCoro = false` a plain synchronous callable. -/
structure PyFunc (α : Type) : Type where
  isCoro : Bool
  fn : Args α → Kwargs α → α

/-- `true` when no keyword name occurs in both lists.  A Python call
`Func(**kwargs, **Partial_Kwargs)` raises `TypeError` exactly when the two
mappings share a key. -/
def kwDisjoint {α : Type} (kwargs pk : Kwargs α) : Bool :=
  kwargs.all (fun p => !(pk.any (fun q => q.1 == p.1)))

/-- The stored behavior of an action.  `AbstractAction.__init__` first installs
`lambda: NotImplemented` (the sync placeholder), `AbstractAsyncAction.__init__`
installs `async def default(): return NotImplemented`; a successful setter call
replaces the placeholder with the wrapper produced by `_gen_wrapper`. -/
inductive BehaviorStore (α : Type) : Type where
  | syncPlaceholder
  | asyncPlaceholder
  | wrapped (w : Args α → Kwargs α → Except PyErr α)

/-- Invoking the stored behavior.  Both placeholders take no parameters, so
they raise `TypeError` when given any argument and return `NotImplemented`
otherwise; a wrapped behavior forwards to the wrapper. -/
def callStore {α : Type} : BehaviorStore α → Args α → Kwargs α → Except PyErr (PyRes α)
  | .syncPlaceholder, [], [] => .ok .notImplemented
  | .syncPlaceholder, _, _ =>
      .error (.typeError "takes 0 positional arguments")
  | .asyncPlaceholder, [], [] => .ok .notImplemented
  | .asyncPlaceholder, _, _ =>
      .error (.typeError "takes 0 positional arguments")
  | .wrapped w, args, kwargs => (w args kwargs).map .val

/-- The sync action: its one piece of state is `self._behavior_store`.
(`__init__` also does `self.__dict__.update(kwargs)`, which installs unrelated
extra attributes and plays no part in the behavior contract.) -/
structure AbstractAction (α : Type) : Type where
  behavior_store : BehaviorStore α

/-- The message of the `ValueError` raised by the `__behavior__` setter
(quotation marks and backquotes of the original triple-quoted string are
dropped, whitespace is collapsed; the wording is otherwise the source text). -/
def syncSetterMsg : String :=
  "Illegal target type coroutine assigned. Consider replacing the func parameter with a blocking, synchronous function instead of a coroutine function. Otherwise, use a class that inherits from the AbstractAsyncAction type."

/-- `AbstractAction._gen_wrapper(Func, *Partial_Args, **Partial_Kwargs)`:
the returned `_generic(*args, **kwargs)` calls
`Func(*args, *Partial_Args, **kwargs, **Partial_Kwargs)` — call-site
positionals first, then the bound ones; call-site keywords first, then the
bound ones, a shared keyword name raising `TypeError`. -/
def AbstractAction.genWrapper {α : Type} (Func : Args α → Kwargs α → α)
    (pa : Args α) (pk : Kwargs α) : Args α → Kwargs α → Except PyErr α :=
  fun args kwargs =>
    if kwDisjoint kwargs pk then
      .ok (Func (args ++ pa) (kwargs ++ pk))
    else
      .error (.typeError "got multiple values for a keyword argument")

/-- The body of the `__behavior__` setter, with the `*args, **kwargs`
parameters of its source signature explicit: when `func` is present and not a
coroutine function the wrapper is stored, otherwise `ValueError` is raised. -/
def AbstractAction.behaviorSetRaw {α : Type} (a : AbstractAction α)
    (func : Option (PyFunc α)) (pargs : Args α) (pkwargs : Kwargs α) :
    Except PyErr (AbstractAction α) :=
  match func with
  | some f =>
      if f.isCoro = false then
        .ok { a with behavior_store := .wrapped (AbstractAction.genWrapper f.fn pargs pkwargs) }
      else
        .error (.valueError syncSetterMsg)
  | none => .error (.valueError syncSetterMsg)

/-- Assigning `self.__behavior__ = func`.  Attribute assignment reaches the
property setter with no extra positional or keyword arguments, so the
`*args, **kwargs` of the setter signature are always empty here. -/
def AbstractAction.behaviorSet {α : Type} (a : AbstractAction α)
    (func : Option (PyFunc α)) : Except PyErr (AbstractAction α) :=
  a.behaviorSetRaw func [] []

/-- `AbstractAction.__init__(func=None)`: installs the sync placeholder and
then performs the assignment `self.__behavior__ = func`. -/
def AbstractAction.init {α : Type} (func : Option (PyFunc α)) :
    Except PyErr (AbstractAction α) :=
  AbstractAction.behaviorSet { behavior_store := .syncPlaceholder } func

/-- `AbstractAction.__call__(*args, **kwargs)` returns
`self.__behavior__(*args, **kwargs)`; the `__behavior__` getter returns
`self._behavior_store`. -/
def AbstractAction.call {α : Type} (a : AbstractAction α)
    (args : Args α) (kwargs : Kwargs α) : Except PyErr (PyRes α) :=
  callStore a.behavior_store args kwargs

/-- The async action: its one piece of state is `self._behavior_store`. -/
structure AbstractAsyncAction (α : Type) : Type where
  behavior_store : BehaviorStore α

/-- The message of the `ValueError` raised by the `__async_behavior__` setter
(same transcription conventions as `syncSetterMsg`; "paramter" is the source
file's own spelling). -/
def asyncSetterMsg : String :=
  "Illegal non-coroutine target type assigned. Please supply an async function to the coro paramter or replace this action with a blocking, synchronous class instance that inherits from the AbstractAction type."

/-- `AbstractAsyncAction._gen_wrapper`: textually identical to
`AbstractAction._gen_wrapper` in the source. -/
def AbstractAsyncAction.genWrapper {α : Type} (Func : Args α → Kwargs α → α)
    (pa : Args α) (pk : Kwargs α) : Args α → Kwargs α → Except PyErr α :=
  fun args kwargs =>
    if kwDisjoint kwargs pk then
      .ok (Func (args ++ pa) (kwargs ++ pk))
    else
      .error (.typeError "got multiple values for a keyword argument")

/-- The body of the `__async_behavior__` setter: when `coro` is present and a
coroutine function the wrapper is stored, otherwise `ValueError` is raised. -/
def AbstractAsyncAction.asyncBehaviorSetRaw {α : Type} (a : AbstractAsyncAction α)
    (coro : Option (PyFunc α)) (pargs : Args α) (pkwargs : Kwargs α) :
    Except PyErr (AbstractAsyncAction α) :=
  match coro with
  | some c =>
      if c.isCoro = true then
        .ok { a with behavior_store := .wrapped (AbstractAsyncAction.genWrapper c.fn pargs pkwargs) }
      else
        .error (.valueError asyncSetterMsg)
  | none => .error (.valueError asyncSetterMsg)

/-- Assigning `self.__async_behavior__ = coro` (no extra arguments reach the
property setter). -/
def AbstractAsyncAction.asyncBehaviorSet {α : Type} (a : AbstractAsyncAction α)
    (coro : Option (PyFunc α)) : Except PyErr (AbstractAsyncAction α) :=
  a.asyncBehaviorSetRaw coro [] []

/-- `AbstractAsyncAction.__init__(coro=None)`: installs the async placeholder
and then performs the assignment `self.__async_behavior__ = coro`. -/
def AbstractAsyncAction.init {α : Type} (coro : Option (PyFunc α)) :
    Except PyErr (AbstractAsyncAction α) :=
  AbstractAsyncAction.asyncBehaviorSet { behavior_store := .asyncPlaceholder } coro

/-- `AbstractAsyncAction.__await__(*args, **kwargs)` evaluates
`self.__async_behavior__(*args, **kwargs)` and awaits the coroutine; awaiting
the result of the stored behavior yields that behavior's return value. -/
def AbstractAsyncAction.awaitCall {α : Type} (a : AbstractAsyncAction α)
    (args : Args α) (kwargs : Kwargs α) : Except PyErr (PyRes α) :=
  callStore a.behavior_store args kwargs

/-!
The structural capability checks.  Each `__subclasshook__` only ever inspects
a candidate through `hasattr(sub, name)` and `callable(sub.name)` (the latter
evaluated only under a preceding `hasattr` guard), so a candidate is modelled
by those two observations for each of the member names the hooks mention.
-/

/-- What the hooks can observe about one named member of a candidate:
whether `hasattr` holds and whether the attribute is callable. -/
structure Member : Type where
  has : Bool
  call : Bool
  deriving DecidableEq

/-- `hasattr(sub, name) and callable(sub.name)`. -/
def Member.hasCallable (m : Member) : Bool := m.has && m.call

/-- A candidate object as the five subclass hooks observe it: one `Member`
record per attribute name any of them mentions (dunder names lose their
underscores: `callm` is `__call__`, `awaitm` is `__await__`, `enter` is
`__enter__`, and so on). -/
structure Candidate : Type where
  enter : Member
  exit : Member
  aenter : Member
  aexit : Member
  generate_uri : Member
  decode_uri : Member
  create : Member
  async_create : Member
  delete : Member
  async_delete : Member
  keystore : Member
  setitem : Member
  getitem : Member
  retrieve : Member
  async_retrieve : Member
  behavior : Member
  callm : Member
  async_behavior : Member
  awaitm : Member
  before_download : Member
  after_download : Member
  before_upload : Member
  after_upload : Member

/-- A Python truth value as the download/upload hooks produce it: a `bool`, or
the `NotImplemented` singleton that their `or NotImplemented` clauses inject. -/
inductive PyV : Type where
  | pyBool (b : Bool)
  | pyNotImplemented
  deriving DecidableEq

/-- Python truthiness: `bool(NotImplemented)` is `True`. -/
def PyV.truthy : PyV → Bool
  | .pyBool b => b
  | .pyNotImplemented => true

/-- Python `or`: the left operand when truthy, otherwise the right. -/
def pyOr (a b : PyV) : PyV := if a.truthy then a else b

/-- Python `and`: the right operand when the left is truthy, otherwise the left. -/
def pyAnd (a b : PyV) : PyV := if a.truthy then b else a

/-- `LinkInterface.__subclasshook__`: a sync or async context-manager pair
plus callable `generate_uri` and `decode_uri`. -/
def LinkInterface.subclasshook (sub : Candidate) : Bool :=
  ((sub.enter.hasCallable && sub.exit.hasCallable) ||
   (sub.aenter.hasCallable && sub.aexit.hasCallable)) &&
  sub.generate_uri.hasCallable && sub.decode_uri.hasCallable

/-- `RegistryInterface.__subclasshook__`: callable `create` or `async_create`;
callable `delete` or `async_delete`; a `__keystore__` attribute (presence
only); callable `__setitem__` and `__getitem__`; callable `retrieve` or
`async_retrieve`. -/
def RegistryInterface.subclasshook (sub : Candidate) : Bool :=
  (sub.create.hasCallable || sub.async_create.hasCallable) &&
  (sub.delete.hasCallable || sub.async_delete.hasCallable) &&
  sub.keystore.has &&
  sub.setitem.hasCallable &&
  sub.getitem.hasCallable &&
  (sub.retrieve.hasCallable || sub.async_retrieve.hasCallable)

/-- `ActionInterface.__subclasshook__`, with the source's branch structure
kept: a `__behavior__` attribute and (callable `__call__`, or callable
`__call__` with a sync context-manager pair); or a `__async_behavior__`
attribute and (callable `__await__`, or callable `__await__` with an async
context-manager pair). -/
def ActionInterface.subclasshook (sub : Candidate) : Bool :=
  (sub.behavior.has &&
    (sub.callm.hasCallable ||
     (sub.callm.hasCallable && sub.enter.hasCallable && sub.exit.hasCallable)))
  ||
  (sub.async_behavior.has &&
    (sub.awaitm.hasCallable ||
     (sub.awaitm.hasCallable && sub.aenter.hasCallable && sub.aexit.hasCallable)))

/-- `DownloadInterface.__subclasshook__`: the Python expression
`ctx and (before_download-check or NotImplemented) and
(after_download-check or NotImplemented) or NotImplemented`, which can
evaluate to a `bool` or to `NotImplemented`. -/
def DownloadInterface.subclasshook (sub : Candidate) : PyV :=
  pyOr
    (pyAnd
      (pyAnd
        (.pyBool ((sub.aenter.has && sub.aexit.has && sub.aenter.call && sub.aexit.call) ||
                  (sub.enter.has && sub.exit.has && sub.enter.call && sub.exit.call)))
        (pyOr (.pyBool (sub.before_download.has && sub.before_download.call)) .pyNotImplemented))
      (pyOr (.pyBool (sub.after_download.has && sub.after_download.call)) .pyNotImplemented))
    .pyNotImplemented

/-- `UploadInterface.__subclasshook__`: same shape as the download hook with
`before_upload` and `after_upload`. -/
def UploadInterface.subclasshook (sub : Candidate) : PyV :=
  pyOr
    (pyAnd
      (pyAnd
        (.pyBool ((sub.aenter.has && sub.aexit.has && sub.aenter.call && sub.aexit.call) ||
                  (sub.enter.has && sub.exit.has && sub.enter.call && sub.exit.call)))
        (pyOr (.pyBool (sub.before_upload.has && sub.before_upload.call)) .pyNotImplemented))
      (pyOr (.pyBool (sub.after_upload.has && sub.after_upload.call)) .pyNotImplemented))
    .pyNotImplemented

/-- A member that is absent. -/
def noMember : Member := { has := false, call := false }

/-- A member that is present and callable. -/
def callableMember : Member := { has := true, call := true }

/-- A candidate exposing nothing at all. -/
def bareCandidate : Candidate :=
  { enter := noMember, exit := noMember, aenter := noMember, aexit := noMember
    generate_uri := noMember, decode_uri := noMember
    create := noMember, async_create := noMember
    delete := noMember, async_delete := noMember
    keystore := noMember, setitem := noMember, getitem := noMember
    retrieve := noMember, async_retrieve := noMember
    behavior := noMember, callm := noMember
    async_behavior := noMember, awaitm := noMember
    before_download := noMember, after_download := noMember
    before_upload := noMember, after_upload := noMember }

/-- A candidate exposing only a creation entry point. -/
def onlyCreateCandidate : Candidate := { bareCandidate with create := callableMember }

/-- A candidate exposing every member the registry role inspects. -/
def fullRegistryCandidate : Candidate :=
  { bareCandidate with
    create := callableMember, async_create := callableMember
    delete := callableMember, async_delete := callableMember
    keystore := callableMember, setitem := callableMember
    getitem := callableMember
    retrieve := callableMember, async_retrieve := callableMember }

/-- A candidate exposing only a sync context-manager pair: no
`before_download`, `after_download`, `before_upload` or `after_upload`. -/
def ctxOnlyCandidate : Candidate :=
  { bareCandidate with enter := callableMember, exit := callableMember }

/-- Replace only the four context-manager members of a candidate. -/
def Candidate.withCtx (sub : Candidate) (e x ae ax : Member) : Candidate :=
  { sub with enter := e, exit := x, aenter := ae, aexit := ax }

/-! Helper lemmas. -/

/-- With no bound keyword arguments there is never a keyword collision. -/
theorem kwDisjoint_nil {α : Type} (kwargs : Kwargs α) : kwDisjoint kwargs [] = true := by
  simp [kwDisjoint]

/-- A keyword bound at the call site keeps its call-site value in the merged
keyword list. -/
theorem lookup_append_of_some {α : Type} {kwargs pk : Kwargs α} {n : String} {v : α}
    (h : List.lookup n kwargs = some v) : List.lookup n (kwargs ++ pk) = some v := by
  induction kwargs with
  | nil => simp [List.lookup] at h
  | cons p t ih =>
      obtain ⟨k, b⟩ := p
      rw [List.cons_append]
      cases hk : (n == k) <;> simp [List.lookup, hk] at h ⊢ <;> simp_all

/-- A keyword not bound at the call site takes its value from the bound
keyword list. -/
theorem lookup_append_of_none {α : Type} {kwargs pk : Kwargs α} {n : String}
    (h : List.lookup n kwargs = none) :
    List.lookup n (kwargs ++ pk) = List.lookup n pk := by
  induction kwargs with
  | nil => simp
  | cons p t ih =>
      obtain ⟨k, b⟩ := p
      rw [List.cons_append]
      cases hk : (n == k)
      · simp only [List.lookup, hk] at h ⊢
        simp_all
      · simp [List.lookup, hk] at h

/-- A concrete synchronous callable (returns the number of positional
arguments it received). -/
def sampleSync : PyFunc Nat := { isCoro := false, fn := fun args _ => args.length }

/-- A concrete coroutine function. -/
def sampleCoro : PyFunc Nat := { isCoro := true, fn := fun args _ => args.length }

/-! The claims. -/

/-- Claim C1: for every valid synchronous callable and every sync action,
assigning the callable through the behavior setter (with no pre-bound
arguments) succeeds, and invoking the resulting action with any positional
and keyword arguments returns exactly the callable applied to those
arguments. -/
theorem c1_set_behavior_then_invoke {α : Type} (F : PyFunc α) (a : AbstractAction α)
    (args : Args α) (kwargs : Kwargs α) (hF : F.isCoro = false) :
    a.behaviorSet (some F) =
      .ok { a with behavior_store := .wrapped (AbstractAction.genWrapper F.fn [] []) } ∧
    AbstractAction.call
      { a with behavior_store := .wrapped (AbstractAction.genWrapper F.fn [] []) }
      args kwargs = .ok (.val (F.fn args kwargs)) := by
  refine ⟨?_, ?_⟩
  · simp [AbstractAction.behaviorSet, AbstractAction.behaviorSetRaw, hF]
  · simp [AbstractAction.call, callStore, AbstractAction.genWrapper, kwDisjoint_nil,
      Except.map]

/-- Witness for C1 at a concrete callable, action and argument lists. -/
theorem c1_set_behavior_then_invoke_witness :
    AbstractAction.behaviorSet { behavior_store := .syncPlaceholder } (some sampleSync) =
      .ok { behavior_store := .wrapped (AbstractAction.genWrapper sampleSync.fn [] []) } ∧
    AbstractAction.call
      { behavior_store := .wrapped (AbstractAction.genWrapper sampleSync.fn [] []) }
      [7, 8] [("k", 5)] = .ok (.val 2) :=
  c1_set_behavior_then_invoke sampleSync { behavior_store := .syncPlaceholder }
    [7, 8] [("k", 5)] rfl

/-- Claim C2: assigning a coroutine function as the behavior of a sync action
fails with the setter's `ValueError` (the embedding of `TypeKindMismatch`),
assigning a non-coroutine callable as the behavior of an async action fails
likewise, and each error message names the required alternate variant. -/
theorem c2_type_kind_mismatch {α : Type} (F G : PyFunc α) (a : AbstractAction α)
    (b : AbstractAsyncAction α) (hF : F.isCoro = true) (hG : G.isCoro = false) :
    a.behaviorSet (some F) = .error (.valueError syncSetterMsg) ∧
    b.asyncBehaviorSet (some G) = .error (.valueError asyncSetterMsg) ∧
    (∃ pre post : String, syncSetterMsg = pre ++ "AbstractAsyncAction" ++ post) ∧
    (∃ pre post : String, asyncSetterMsg = pre ++ "AbstractAction" ++ post) := by
  refine ⟨?_, ?_, ?_, ?_⟩
  · simp [AbstractAction.behaviorSet, AbstractAction.behaviorSetRaw, hF]
  · simp [AbstractAsyncAction.asyncBehaviorSet, AbstractAsyncAction.asyncBehaviorSetRaw, hG]
  · exact ⟨"Illegal target type coroutine assigned. Consider replacing the func parameter with a blocking, synchronous function instead of a coroutine function. Otherwise, use a class that inherits from the ", " type.", rfl⟩
  · exact ⟨"Illegal non-coroutine target type assigned. Please supply an async function to the coro paramter or replace this action with a blocking, synchronous class instance that inherits from the ", " type.", rfl⟩

/-- Witness for C2 at a concrete coroutine function, a concrete synchronous
callable and concrete fresh actions. -/
theorem c2_type_kind_mismatch_witness :
    AbstractAction.behaviorSet { behavior_store := .syncPlaceholder } (some sampleCoro) =
      .error (.valueError syncSetterMsg) ∧
    AbstractAsyncAction.asyncBehaviorSet { behavior_store := .asyncPlaceholder }
      (some sampleSync) = .error (.valueError asyncSetterMsg) ∧
    (∃ pre post : String, syncSetterMsg = pre ++ "AbstractAsyncAction" ++ post) ∧
    (∃ pre post : String, asyncSetterMsg = pre ++ "AbstractAction" ++ post) :=
  c2_type_kind_mismatch sampleCoro sampleSync { behavior_store := .syncPlaceholder }
    { behavior_store := .asyncPlaceholder } rfl rfl

/-- Claim C3 divergence: constructing either action without an initial
behavior does not succeed with an unimplemented placeholder — `__init__`
assigns the default `None` through the behavior setter, whose
`func is not None` / `coro is not None` guard fails, so the `ValueError` is
raised already at construction time (the placeholder the constructor installs
first is unreachable dead state). -/
theorem c3_init_without_behavior_raises :
    AbstractAction.init (α := Nat) none = .error (.valueError syncSetterMsg) ∧
    AbstractAsyncAction.init (α := Nat) none = .error (.valueError asyncSetterMsg) :=
  ⟨rfl, rfl⟩

/-- Claim C4: a wrapper built from pre-bound positional and named values
forwards to the original callable with call-site positionals first, then the
bound ones, and with the named arguments merged so that a call-site binding
wins and the bound ones fill the remaining names (both `_gen_wrapper`
copies agree). -/
theorem c4_wrapper_merges_bound_arguments {α : Type} (F : Args α → Kwargs α → α)
    (pa : Args α) (pk : Kwargs α) (args : Args α) (kwargs : Kwargs α)
    (hdisj : kwDisjoint kwargs pk = true) :
    AbstractAction.genWrapper F pa pk args kwargs = .ok (F (args ++ pa) (kwargs ++ pk)) ∧
    AbstractAsyncAction.genWrapper F pa pk args kwargs =
      AbstractAction.genWrapper F pa pk args kwargs ∧
    (∀ n v, List.lookup n kwargs = some v → List.lookup n (kwargs ++ pk) = some v) ∧
    (∀ n, List.lookup n kwargs = none → List.lookup n (kwargs ++ pk) = List.lookup n pk) := by
  refine ⟨?_, rfl, ?_, ?_⟩
  · simp [AbstractAction.genWrapper, hdisj]
  · intro n v h
    exact lookup_append_of_some h
  · intro n h
    exact lookup_append_of_none h

/-- Witness for C4 at a concrete callable, bound arguments and call-site
arguments. -/
theorem c4_wrapper_merges_bound_arguments_witness :
    AbstractAction.genWrapper (fun (args : Args Nat) _ => args.length) [10] [("b", 1)]
      [20, 30] [("a", 2)] = .ok 3 ∧
    AbstractAsyncAction.genWrapper (fun (args : Args Nat) _ => args.length) [10] [("b", 1)]
      [20, 30] [("a", 2)] =
      AbstractAction.genWrapper (fun (args : Args Nat) _ => args.length) [10] [("b", 1)]
        [20, 30] [("a", 2)] ∧
    (∀ n v, List.lookup n [("a", 2)] = some v →
      List.lookup n ([("a", 2)] ++ [("b", 1)]) = some v) ∧
    (∀ n, List.lookup n ([("a", 2)] : Kwargs Nat) = none →
      List.lookup n ([("a", 2)] ++ [("b", 1)]) = List.lookup n [("b", 1)]) :=
  c4_wrapper_merges_bound_arguments (fun args _ => args.length) [10] [("b", 1)]
    [20, 30] [("a", 2)] (by decide)

/-- Claim C8: the assignment interface passes no pre-bound values — it is the
raw setter with empty bound positional and named lists — so any action a
successful assignment produces calls the callable with exactly the call-site
arguments and nothing more. -/
theorem c8_assignment_binds_no_partials {α : Type} (F : PyFunc α)
    (a : AbstractAction α) (args : Args α) (kwargs : Kwargs α)
    (hF : F.isCoro = false) :
    a.behaviorSet (some F) = a.behaviorSetRaw (some F) [] [] ∧
    (∀ a2 : AbstractAction α, a.behaviorSet (some F) = .ok a2 →
      a2.call args kwargs = .ok (.val (F.fn args kwargs))) := by
  refine ⟨rfl, ?_⟩
  intro a2 h
  simp only [AbstractAction.behaviorSet, AbstractAction.behaviorSetRaw, hF,
    if_pos, Except.ok.injEq] at h
  subst h
  simp [AbstractAction.call, callStore, AbstractAction.genWrapper, kwDisjoint_nil,
    Except.map]

/-- Witness for C8 at a concrete callable, action and argument lists. -/
theorem c8_assignment_binds_no_partials_witness :
    AbstractAction.behaviorSet { behavior_store := .syncPlaceholder } (some sampleSync) =
      AbstractAction.behaviorSetRaw { behavior_store := .syncPlaceholder }
        (some sampleSync) [] [] ∧
    (∀ a2 : AbstractAction Nat,
      AbstractAction.behaviorSet { behavior_store := .syncPlaceholder }
        (some sampleSync) = .ok a2 →
      a2.call [4, 5, 6] [("x", 0)] = .ok (.val 3)) :=
  c8_assignment_binds_no_partials sampleSync { behavior_store := .syncPlaceholder }
    [4, 5, 6] [("x", 0)] rfl

/-- The download/upload hook expression over arbitrary boolean sub-results:
it evaluates to `True` or to `NotImplemented`, never to `False`, because of
the trailing `or NotImplemented`. -/
theorem hookShape_true_or_notImplemented (a b c : Bool) :
    pyOr (pyAnd (pyAnd (.pyBool a) (pyOr (.pyBool b) .pyNotImplemented))
        (pyOr (.pyBool c) .pyNotImplemented)) .pyNotImplemented = PyV.pyBool true ∨
    pyOr (pyAnd (pyAnd (.pyBool a) (pyOr (.pyBool b) .pyNotImplemented))
        (pyOr (.pyBool c) .pyNotImplemented)) .pyNotImplemented = PyV.pyNotImplemented := by
  cases a <;> cases b <;> cases c <;> decide

/-- The download/upload hook expression is always truthy. -/
theorem hookShape_truthy (a b c : Bool) :
    (pyOr (pyAnd (pyAnd (.pyBool a) (pyOr (.pyBool b) .pyNotImplemented))
        (pyOr (.pyBool c) .pyNotImplemented)) .pyNotImplemented).truthy = true := by
  cases a <;> cases b <;> cases c <;> decide

/-- `p or (p and q and r)` absorbs to `p`. -/
theorem branch_absorb (p q r : Bool) : (p || (p && q && r)) = p := by
  cases p <;> cases q <;> cases r <;> rfl

/-- Claim C5: the registry capability check accepts a candidate exactly when
it exposes a callable `create` or `async_create`, a callable `delete` or
`async_delete`, a `__keystore__` marker attribute, a callable `__setitem__`,
a callable `__getitem__`, and a callable `retrieve` or `async_retrieve`; in
particular a candidate exposing only a creation entry point is rejected. -/
theorem c5_registry_role_requirements :
    (∀ sub : Candidate,
      RegistryInterface.subclasshook sub = true ↔
        ((sub.create.has = true ∧ sub.create.call = true) ∨
         (sub.async_create.has = true ∧ sub.async_create.call = true)) ∧
        ((sub.delete.has = true ∧ sub.delete.call = true) ∨
         (sub.async_delete.has = true ∧ sub.async_delete.call = true)) ∧
        sub.keystore.has = true ∧
        (sub.setitem.has = true ∧ sub.setitem.call = true) ∧
        (sub.getitem.has = true ∧ sub.getitem.call = true) ∧
        ((sub.retrieve.has = true ∧ sub.retrieve.call = true) ∨
         (sub.async_retrieve.has = true ∧ sub.async_retrieve.call = true))) ∧
    RegistryInterface.subclasshook onlyCreateCandidate = false := by
  constructor
  · intro sub
    simp [RegistryInterface.subclasshook, Member.hasCallable, Bool.and_eq_true,
      Bool.or_eq_true, and_assoc]
  · rfl

/-- Claim C6 counterexample: on the candidate exposing nothing, the download
capability check returns `NotImplemented`, which is neither of the two
booleans — so not every check returns a boolean. -/
theorem c6_counterexample_not_boolean :
    DownloadInterface.subclasshook bareCandidate = PyV.pyNotImplemented ∧
    PyV.pyNotImplemented ≠ PyV.pyBool true ∧ PyV.pyNotImplemented ≠ PyV.pyBool false := by
  refine ⟨rfl, ?_, ?_⟩ <;> decide

/-- Claim C6 as amended: every capability check is total (never raises); the
registry, action and link checks return a boolean, while the download and
upload checks return either `True` or the truthy non-boolean `NotImplemented`,
never `False`. -/
theorem c6_checks_total_but_download_upload_not_boolean :
    ∀ sub : Candidate,
      (DownloadInterface.subclasshook sub = PyV.pyBool true ∨
       DownloadInterface.subclasshook sub = PyV.pyNotImplemented) ∧
      (UploadInterface.subclasshook sub = PyV.pyBool true ∨
       UploadInterface.subclasshook sub = PyV.pyNotImplemented) ∧
      (RegistryInterface.subclasshook sub = true ∨
       RegistryInterface.subclasshook sub = false) ∧
      (ActionInterface.subclasshook sub = true ∨
       ActionInterface.subclasshook sub = false) ∧
      (LinkInterface.subclasshook sub = true ∨
       LinkInterface.subclasshook sub = false) := by
  intro sub
  refine ⟨?_, ?_, ?_, ?_, ?_⟩
  · simp only [DownloadInterface.subclasshook]
    exact hookShape_true_or_notImplemented _ _ _
  · simp only [UploadInterface.subclasshook]
    exact hookShape_true_or_notImplemented _ _ _
  · exact Bool.eq_false_or_eq_true _
  · exact Bool.eq_false_or_eq_true _
  · exact Bool.eq_false_or_eq_true _

/-- Claim C7 counterexample: none of the registry role's required-member
checks is a no-op — removing any one required group from an otherwise fully
equipped candidate makes the registry check reject it. -/
theorem c7_counterexample_no_noop_groups :
    RegistryInterface.subclasshook
      { fullRegistryCandidate with create := noMember, async_create := noMember } = false ∧
    RegistryInterface.subclasshook
      { fullRegistryCandidate with delete := noMember, async_delete := noMember } = false ∧
    RegistryInterface.subclasshook
      { fullRegistryCandidate with keystore := noMember } = false ∧
    RegistryInterface.subclasshook
      { fullRegistryCandidate with setitem := noMember } = false ∧
    RegistryInterface.subclasshook
      { fullRegistryCandidate with getitem := noMember } = false ∧
    RegistryInterface.subclasshook
      { fullRegistryCandidate with retrieve := noMember, async_retrieve := noMember } = false :=
  ⟨rfl, rfl, rfl, rfl, rfl, rfl⟩

/-- Claim C7 as amended: the registry-role check contains no
`or NotImplemented` sub-expression and enforces every required-member group —
any accepted candidate has all of them.  The always-truthy
`or NotImplemented` no-ops occur in the download and upload checks instead,
which accept a candidate lacking their before/after hook members. -/
theorem c7_noop_checks_are_in_download_upload :
    (∀ sub : Candidate, RegistryInterface.subclasshook sub = true →
      (sub.create.hasCallable = true ∨ sub.async_create.hasCallable = true) ∧
      (sub.delete.hasCallable = true ∨ sub.async_delete.hasCallable = true) ∧
      sub.keystore.has = true ∧ sub.setitem.hasCallable = true ∧
      sub.getitem.hasCallable = true ∧
      (sub.retrieve.hasCallable = true ∨ sub.async_retrieve.hasCallable = true)) ∧
    (DownloadInterface.subclasshook ctxOnlyCandidate).truthy = true ∧
    (UploadInterface.subclasshook ctxOnlyCandidate).truthy = true := by
  refine ⟨?_, rfl, rfl⟩
  intro sub h
  simp [RegistryInterface.subclasshook, Bool.and_eq_true, Bool.or_eq_true] at h
  tauto

/-- Claim C9: the action capability check is unchanged by the context-manager
members — it accepts exactly the candidates with a `__behavior__` attribute
and a callable `__call__`, or a `__async_behavior__` attribute and a callable
`__await__`, because `A or (A and B and C)` absorbs to `A`. -/
theorem c9_action_hook_ctx_redundant :
    ∀ sub : Candidate,
      (ActionInterface.subclasshook sub =
        ((sub.behavior.has && sub.callm.hasCallable) ||
         (sub.async_behavior.has && sub.awaitm.hasCallable))) ∧
      (∀ e x ae ax : Member,
        ActionInterface.subclasshook (sub.withCtx e x ae ax) =
          ActionInterface.subclasshook sub) := by
  have key : ∀ s : Candidate, ActionInterface.subclasshook s =
      ((s.behavior.has && s.callm.hasCallable) ||
       (s.async_behavior.has && s.awaitm.hasCallable)) := by
    intro s
    simp only [ActionInterface.subclasshook]
    rw [branch_absorb, branch_absorb]
  intro sub
  refine ⟨key sub, ?_⟩
  intro e x ae ax
  rw [key, key]
  rfl

/-- Claim C10: the download capability check never returns `False` — for
every candidate it returns the truthy `True` or `NotImplemented`, and on the
candidate lacking all context-manager members and both download hooks it
returns `NotImplemented`. -/
theorem c10_download_hook_never_rejects :
    (∀ sub : Candidate,
      (DownloadInterface.subclasshook sub).truthy = true ∧
      (DownloadInterface.subclasshook sub = PyV.pyBool true ∨
       DownloadInterface.subclasshook sub = PyV.pyNotImplemented)) ∧
    DownloadInterface.subclasshook bareCandidate = PyV.pyNotImplemented := by
  refine ⟨?_, rfl⟩
  intro sub
  constructor
  · simp only [DownloadInterface.subclasshook]
    exact hookShape_truthy _ _ _
  · simp only [DownloadInterface.subclasshook]
    exact hookShape_true_or_notImplemented _ _ _

end Arcane
